import Mathlib

/-!
Shallow embedding of the LuvvTapp browser client
(`src/luvvtapp-react/src/App.jsx`).

The client is a single React component holding all application state in
`useState` hooks and issuing one-shot `fetch` calls to a backend.  We model:

* the component state as an explicit `AppState` record;
* each event handler as a pure function from the pre-state (plus the outcome
  of its single `fetch`) to the post-state, together with flags recording
  whether the handler logged an error and whether an exception escaped it;
* JavaScript value quirks that matter to the claims: `undefined` vs `null`
  under `JSON.stringify` (an `undefined`-valued property is dropped from the
  serialized body, a `null`-valued one is kept), string falsiness under `||`
  (the empty string counts as false), and `String.prototype.slice(0, n)`;
* browser `localStorage` as an association list from keys to strings.
-/

/-- JS `s.slice(0, n)`: the first `n` elements of the string. -/
def jsSlice (s : String) (n : Nat) : String := ⟨s.data.take n⟩

/-- JS `s || d` for strings: `s` when non-empty (truthy), else `d`. -/
def jsOrStr (s d : String) : String := if s = "" then d else s

/-- JS `v || d` where `v` may be `undefined`/`null` (modelled `none`) or a
string (falsy exactly when empty). -/
def jsOrOpt (v : Option String) (d : String) : String :=
  match v with
  | none => d
  | some s => if s = "" then d else s

/-- JS idiom `s ? some payload : undefined` on a string: `none` when empty. -/
def optOfEmpty (s : String) : Option String := if s = "" then none else some s

/-- JS `s.trim()`: strip whitespace from both ends (written over the
character list so that the kernel can evaluate it). -/
def jsTrim (s : String) : String :=
  ⟨((s.data.dropWhile Char.isWhitespace).reverse.dropWhile
      Char.isWhitespace).reverse⟩

/-- Split a character list at a separator; `splitCharAux sep [] [] = [[]]`,
matching JS `''.split(sep) = ['']`. -/
def splitCharAux (sep : Char) : List Char → List Char → List (List Char)
  | [], acc => [acc.reverse]
  | c :: cs, acc =>
      if c = sep then acc.reverse :: splitCharAux sep cs []
      else splitCharAux sep cs (c :: acc)

/-- JS `s.split(sep)` for a one-character separator. -/
def jsSplit (s : String) (sep : Char) : List String :=
  (splitCharAux sep s.data []).map (fun l => ⟨l⟩)

/-- JS `s.split(',').map(x => x.trim()).filter(Boolean)` as used by the
partner-profile wizard (`App.jsx` lines 918, 921). -/
def splitTrimFilter (s : String) : List String :=
  ((jsSplit s ',').map jsTrim).filter (fun x => x ≠ "")

/-- Self-assessment object (`personality_type` / `love_language` /
`communication_style`), each key present only when chosen (App.jsx 605-612). -/
structure SelfAssessment where
  personality_type : Option String
  love_language : Option String
  communication_style : Option String
deriving DecidableEq, Repr

/-- Partner-profile `preferences` map built by the wizard (App.jsx 919-928). -/
structure Preferences where
  birthday : String
  anniversary_dates : List String
  zodiac_sign : Option String
  music_preferences : Option String
  religious_beliefs : Option String
  ideal_vacations : Option String
  fashion_preferences : Option String
  dietary_restrictions : Option String
deriving DecidableEq, Repr

/-- Partner profile as exchanged with the backend. -/
structure PartnerProfile where
  name : String
  personality_type : Option String
  love_language : Option String
  interests : Option (List String)
  preferences : Option Preferences
deriving DecidableEq, Repr

/-- A relationship record: type plus embedded partner profile. -/
structure Relationship where
  relationship_type : String
  partner_profile : PartnerProfile
deriving DecidableEq, Repr

/-- A chat message (`role` is `user` or `assistant`). -/
structure Message where
  role : String
  content : String
deriving DecidableEq, Repr

/-- The user profile loaded from `GET /api/users/id`. -/
structure UserProfile where
  name : String
  email : String
  self_assessment : Option SelfAssessment
deriving DecidableEq, Repr

/-- An advice list entry (`GET /api/advice/userId` items). -/
structure Advice where
  advice_id : String
  topic : String
  preview : String
deriving DecidableEq, Repr

/-- The advice record held in `selectedAdvice` (App.jsx 192). -/
structure SelectedAdvice where
  advice_id : String
  topic : String
  content : String
  created_at : String
deriving DecidableEq, Repr

/-- A session list entry (`GET /api/sessions/userId` items). -/
structure Session where
  session_id : String
  context_type : Option String
  relationship_type : Option String
  partner_profile : Option PartnerProfile
  updated_at : String
deriving DecidableEq, Repr

/-- The `useState` hooks of the `App` component (App.jsx 7-24), as one record.
`Option` models JS `null`/`undefined` in a state slot. -/
structure AppState where
  currentView : String
  userId : Option String
  userProfile : Option UserProfile
  relationships : List Relationship
  selectedRelationship : Option Relationship
  messages : List Message
  adviceOpen : Bool
  adviceTopic : String
  adviceSituation : String
  advicePartner : Option Relationship
  adviceLoading : Bool
  adviceList : List Advice
  selectedAdvice : Option SelectedAdvice
  sessions : List Session
  inputMessage : String
  sessionId : Option String
  loading : Bool
  sidebarOpen : Bool
deriving DecidableEq, Repr

/-- Outcome of one `fetch` call: a parsed success body, a response with
`res.ok` false, or a network-level rejection (the promise throws). -/
inductive FetchOutcome (α : Type) where
  | success (data : α)
  | httpError
  | networkError
deriving DecidableEq, Repr

/-- Result of running an event handler: the post-state, whether the handler
logged an error to the console, and whether an exception escaped it. -/
structure HandlerResult where
  state : AppState
  logged : Bool
  uncaught : Bool
deriving DecidableEq, Repr

/-- A JavaScript value appearing in a request body we build.  `undef` is JS
`undefined`, `jnull` is JS `null`; `JSON.stringify` drops the former and
keeps the latter. -/
inductive JsVal where
  | undef
  | jnull
  | str (s : String)
  | profile (p : PartnerProfile)
  | assessment (a : SelfAssessment)
deriving DecidableEq, Repr

/-- The property names that survive `JSON.stringify` of an object literal:
`undefined`-valued properties are dropped, everything else (including `null`)
is kept. -/
def serializedKeys (body : List (String × JsVal)) : List String :=
  (body.filter (fun kv => kv.2 ≠ JsVal.undef)).map Prod.fst

/-- An HTTP request issued by the client. -/
structure Request where
  method : String
  path : String
  body : List (String × JsVal)
deriving DecidableEq, Repr

/-- The single localStorage key the client uses (App.jsx 8, 132, 388). -/
def appStorageKey : String := "luvvtapp_user_id"

/-- Browser localStorage modelled as an association list. -/
def storageGet (store : List (String × String)) (k : String) : Option String :=
  (store.find? (fun kv => kv.1 = k)).map Prod.snd

/-- `localStorage.setItem k v`. -/
def storageSet (store : List (String × String)) (k v : String) :
    List (String × String) :=
  (k, v) :: store.filter (fun kv => kv.1 ≠ k)

/-- `localStorage.removeItem k`. -/
def storageRemove (store : List (String × String)) (k : String) :
    List (String × String) :=
  store.filter (fun kv => kv.1 ≠ k)

/-- One localStorage operation, for enumerating the client's call sites. -/
inductive StorageOp where
  | read (key : String)
  | write (key value : String)
  | remove (key : String)
deriving DecidableEq, Repr

/-- The key a storage operation touches. -/
def StorageOp.key : StorageOp → String
  | .read k => k
  | .write k _ => k
  | .remove k => k

/-- Every localStorage call site in the client, in source order: the initial
read (App.jsx 8), the write of the freshly generated id in `createUser`
(App.jsx 132), and the removal performed by Sign Out (App.jsx 388). -/
def clientStorageOps (generatedUserId : String) : List StorageOp :=
  [StorageOp.read appStorageKey,
   StorageOp.write appStorageKey generatedUserId,
   StorageOp.remove appStorageKey]

/-- Initial `userId` state: `localStorage.getItem('luvvtapp_user_id') || null`
(App.jsx 8); an empty stored string is falsy and becomes `null`. -/
def initialUserId (store : List (String × String)) : Option String :=
  match storageGet store appStorageKey with
  | none => none
  | some s => if s = "" then none else some s

/-- `Sign Out` quick action (App.jsx 388): remove the stored id, clear the
user id state. -/
def signOut (st : AppState) (store : List (String × String)) :
    AppState × List (String × String) :=
  ({ st with userId := none }, storageRemove store appStorageKey)

/-- The onboarding gate (App.jsx 232-234): the onboarding screen is shown
whenever there is no user id or no loaded profile. -/
def showOnboarding (st : AppState) : Bool :=
  st.userId.isNone || st.userProfile.isNone

/-- Body of `GET /api/sessions/sessionId/history` as the client reads it
(App.jsx 49-57): `messages` may be missing (`data.messages || []`),
`partner_profile` and `relationship_type` are optional. -/
structure HistoryResponse where
  messages : Option (List Message)
  partner_profile : Option PartnerProfile
  relationship_type : Option String
deriving DecidableEq, Repr

/-- `openSession` (App.jsx 45-64).  On `res.ok`: adopt the session id, set
`selectedRelationship` from the response's partner context (clearing it when
`data.partner_profile` is absent, defaulting the type via
`data.relationship_type || 'general'`), replace the messages list with
`(data.messages || []).map(m => ({role, content}))`, switch to the chat view
and close the sidebar.  A non-ok response leaves the state alone; a thrown
network error is caught and logged. -/
def openSession (st : AppState) (sid : String)
    (o : FetchOutcome HistoryResponse) : HandlerResult :=
  match o with
  | .success data =>
      { state :=
          { st with
            sessionId := some sid,
            selectedRelationship :=
              match data.partner_profile with
              | some p =>
                  some { relationship_type := jsOrOpt data.relationship_type "general",
                         partner_profile := p }
              | none => none,
            messages := (data.messages.getD []).map (fun m =>
              { role := m.role, content := m.content }),
            currentView := "chat",
            sidebarOpen := false },
        logged := false, uncaught := false }
  | .httpError => { state := st, logged := false, uncaught := false }
  | .networkError => { state := st, logged := true, uncaught := false }

/-- Body of `POST /api/users` built by `createUser` (App.jsx 122-127).  The
`self_assessment` property is written even when the assessment argument is
JS `null` — `JSON.stringify` keeps a `null`-valued property. -/
def createUserBody (newUserId name email : String)
    (assessment : Option SelfAssessment) : List (String × JsVal) :=
  [("user_id", JsVal.str newUserId),
   ("name", JsVal.str name),
   ("email", JsVal.str email),
   ("self_assessment",
      match assessment with
      | some a => JsVal.assessment a
      | none => JsVal.jnull)]

/-- The full `POST /api/users` request issued by `createUser`. -/
def createUserRequest (newUserId name email : String)
    (assessment : Option SelfAssessment) : Request :=
  { method := "POST", path := "/api/users",
    body := createUserBody newUserId name email assessment }

/-- `createUser` (App.jsx 116-138) over state and localStorage.  On `res.ok`
the client adopts the generated id and writes it under the fixed key (the
follow-up `loadUserProfile()` fetch is a separate call, not modelled here);
otherwise nothing changes.  A thrown network error is caught and logged. -/
def createUser (st : AppState) (store : List (String × String))
    (newUserId _name _email : String) (_assessment : Option SelfAssessment)
    (o : FetchOutcome Unit) :
    AppState × List (String × String) × Bool :=
  match o with
  | .success _ =>
      ({ st with userId := some newUserId },
       storageSet store appStorageKey newUserId, false)
  | .httpError => (st, store, false)
  | .networkError => (st, store, true)

/-- The `relationship_type` field of the chat body (App.jsx 155):
`selectedRelationship?.relationship_type || 'general'`. -/
def chatRelationshipType (st : AppState) : String :=
  match st.selectedRelationship with
  | none => "general"
  | some r => jsOrStr r.relationship_type "general"

/-- Body of `POST /api/chat` built by `sendMessage` (App.jsx 152-159).
`partner_profile` and `self_assessment` use optional chaining and become JS
`undefined` (dropped by `JSON.stringify`) when absent; `session_id` may be
JS `null` (kept). -/
def chatRequestBody (st : AppState) : List (String × JsVal) :=
  [("user_id",
      match st.userId with
      | some u => JsVal.str u
      | none => JsVal.jnull),
   ("message", JsVal.str st.inputMessage),
   ("relationship_type", JsVal.str (chatRelationshipType st)),
   ("partner_profile",
      match st.selectedRelationship with
      | some r => JsVal.profile r.partner_profile
      | none => JsVal.undef),
   ("self_assessment",
      match st.userProfile with
      | some u =>
          match u.self_assessment with
          | some a => JsVal.assessment a
          | none => JsVal.undef
      | none => JsVal.undef),
   ("session_id",
      match st.sessionId with
      | some s => JsVal.str s
      | none => JsVal.jnull)]

/-- Body of a successful `POST /api/chat` response. -/
structure ChatResponse where
  session_id : String
  response : String
deriving DecidableEq, Repr

/-- `sendMessage` (App.jsx 140-172).  A blank (whitespace-only) input returns
immediately.  Otherwise the user message is appended and the input cleared
BEFORE the request; on `res.ok` the session id is adopted and the assistant
reply appended; on a non-ok response nothing further happens (and nothing is
logged); a thrown network error is caught and logged.  `finally` always
clears the loading flag.  Nothing is ever rolled back. -/
def sendMessage (st : AppState) (o : FetchOutcome ChatResponse) :
    HandlerResult :=
  if jsTrim st.inputMessage = "" then
    { state := st, logged := false, uncaught := false }
  else
    let userMsg : Message := { role := "user", content := st.inputMessage }
    let st1 : AppState :=
      { st with messages := st.messages ++ [userMsg], inputMessage := "",
                loading := true }
    match o with
    | .success data =>
        { state :=
            { st1 with
              sessionId := some data.session_id,
              messages := st1.messages ++
                [{ role := "assistant", content := data.response }],
              loading := false },
          logged := false, uncaught := false }
    | .httpError =>
        { state := { st1 with loading := false },
          logged := false, uncaught := false }
    | .networkError =>
        { state := { st1 with loading := false },
          logged := true, uncaught := false }

/-- The `onChange` handler of the advice situation textarea (App.jsx 466):
`setAdviceSituation(e.target.value.slice(0, 1000))`. -/
def adviceSituationOnChange (value : String) : String := jsSlice value 1000

/-- The character count shown next to the textarea (App.jsx 467):
`adviceSituation.length`. -/
def adviceCharCount (st : AppState) : Nat := st.adviceSituation.length

/-- Payload of `POST /api/advice` built by `submitAdvice` (App.jsx 178-184):
the `situation` field is `adviceSituation.slice(0, 1000)`; `partner_profile`
is JS `undefined` when no reference partner is chosen. -/
structure AdvicePayload where
  user_id : Option String
  topic : String
  situation : String
  partner_profile : Option PartnerProfile
  self_assessment : Option SelfAssessment
deriving DecidableEq, Repr

/-- The payload `submitAdvice` builds from the current state. -/
def submitAdvicePayload (st : AppState) : AdvicePayload :=
  { user_id := st.userId,
    topic := st.adviceTopic,
    situation := jsSlice st.adviceSituation 1000,
    partner_profile := st.advicePartner.map (fun r => r.partner_profile),
    self_assessment := st.userProfile.bind (fun u => u.self_assessment) }

/-- Body of a successful `POST /api/advice` response as read at App.jsx 192. -/
structure AdviceResponse where
  advice_id : String
  topic : String
  content : String
  created_at : String
deriving DecidableEq, Repr

/-- `submitAdvice` (App.jsx 174-203).  Guard: empty topic or blank situation
returns immediately.  On `res.ok`: show the created advice, close the form,
clear the situation text and the reference partner (the `loadAdviceList()`
refresh is a separate fetch, not modelled).  A thrown network error is
caught and logged; `finally` clears the advice loading flag. -/
def submitAdvice (st : AppState) (o : FetchOutcome AdviceResponse) :
    HandlerResult :=
  if st.adviceTopic = "" ∨ jsTrim st.adviceSituation = "" then
    { state := st, logged := false, uncaught := false }
  else
    match o with
    | .success data =>
        { state :=
            { st with
              adviceLoading := false,
              selectedAdvice := some
                { advice_id := data.advice_id, topic := data.topic,
                  content := data.content, created_at := data.created_at },
              adviceOpen := false,
              adviceSituation := "",
              advicePartner := none },
          logged := false, uncaught := false }
    | .httpError =>
        { state := { st with adviceLoading := false },
          logged := false, uncaught := false }
    | .networkError =>
        { state := { st with adviceLoading := false },
          logged := true, uncaught := false }

/-- `deleteAdvice` (App.jsx 220-230).  On `res.ok`: filter the advice list by
`a.advice_id !== advice_id` and clear `selectedAdvice` exactly when its id
equals the deleted one.  A thrown network error is caught and logged. -/
def deleteAdvice (st : AppState) (advice_id : String)
    (o : FetchOutcome Unit) : HandlerResult :=
  match o with
  | .success _ =>
      let st1 : AppState :=
        { st with adviceList :=
            st.adviceList.filter (fun a => a.advice_id ≠ advice_id) }
      let hit : Bool :=
        match st.selectedAdvice with
        | some sa => sa.advice_id = advice_id
        | none => false
      let st2 : AppState :=
        if hit then { st1 with selectedAdvice := none } else st1
      { state := st2, logged := false, uncaught := false }
  | .httpError => { state := st, logged := false, uncaught := false }
  | .networkError => { state := st, logged := true, uncaught := false }

/-- What the onboarding screen passes to `onComplete` (= `createUser`). -/
structure OnboardingSubmission where
  name : String
  email : String
  assessment : Option SelfAssessment
deriving DecidableEq, Repr

/-- `Object.keys(assessment).length` for the conditionally-built assessment
object of App.jsx 606-609: each key is present iff its form field is a
non-empty string. -/
def assessmentKeyCount (a : SelfAssessment) : Nat :=
  (if a.personality_type.isSome then 1 else 0) +
  (if a.love_language.isSome then 1 else 0) +
  (if a.communication_style.isSome then 1 else 0)

/-- `OnboardingScreen.handleSubmit` (App.jsx 605-612): build the assessment
object key by key from the truthy form fields, then pass it to `onComplete`,
replacing it by JS `null` when it has no keys. -/
def handleSubmit (name email personalityType loveLanguage
    communicationStyle : String) : OnboardingSubmission :=
  let assessment : SelfAssessment :=
    { personality_type := optOfEmpty personalityType,
      love_language := optOfEmpty loveLanguage,
      communication_style := optOfEmpty communicationStyle }
  { name := name, email := email,
    assessment :=
      if 0 < assessmentKeyCount assessment then some assessment else none }

/-- The form state of `AddPartnerProfileWizard` (App.jsx 886-901). -/
structure WizardForm where
  name : String
  birthday : String
  relationship_status : String
  anniversary_dates : String
  love_language : String
  zodiac_sign : String
  music_preferences : String
  religious_beliefs : String
  ideal_vacations : String
  hobbies : String
  fashion_preferences : String
  dietary_restrictions : String
deriving DecidableEq, Repr

/-- The `partner_profile` object built by the wizard's `submit`
(App.jsx 915-929). -/
def wizardPartnerProfile (f : WizardForm) : PartnerProfile :=
  { name := f.name,
    personality_type := none,
    love_language := optOfEmpty f.love_language,
    interests :=
      if f.hobbies = "" then none else some (splitTrimFilter f.hobbies),
    preferences := some
      { birthday := f.birthday,
        anniversary_dates :=
          if f.anniversary_dates = "" then []
          else splitTrimFilter f.anniversary_dates,
        zodiac_sign := optOfEmpty f.zodiac_sign,
        music_preferences := optOfEmpty f.music_preferences,
        religious_beliefs := optOfEmpty f.religious_beliefs,
        ideal_vacations := optOfEmpty f.ideal_vacations,
        fashion_preferences := optOfEmpty f.fashion_preferences,
        dietary_restrictions := optOfEmpty f.dietary_restrictions } }

/-- The `POST /api/relationships` request the wizard's `submit` issues
(App.jsx 930-934). -/
def wizardRequest (userId : String) (f : WizardForm) : Request :=
  { method := "POST", path := "/api/relationships",
    body :=
      [("user_id", JsVal.str userId),
       ("relationship_type", JsVal.str f.relationship_status),
       ("partner_profile", JsVal.profile (wizardPartnerProfile f))] }

/-- Result of the wizard's `submit`: the final saving flag, whether `onSaved`
ran, the request built, whether anything was logged, and whether an
exception escaped the handler. -/
structure WizardSubmitResult where
  saving : Bool
  savedInvoked : Bool
  request : Request
  logged : Bool
  uncaughtException : Bool
deriving DecidableEq, Repr

/-- `AddPartnerProfileWizard.submit` (App.jsx 911-941).  The body is a
`try { ... } finally { setSaving(false) }` with NO catch clause: a network
rejection of the `fetch` escapes the handler unlogged (the `finally` still
resets the saving flag); a non-ok response simply skips `onSaved()`. -/
def wizardSubmit (userId : String) (f : WizardForm) (o : FetchOutcome Unit) :
    WizardSubmitResult :=
  match o with
  | .success _ =>
      { saving := false, savedInvoked := true,
        request := wizardRequest userId f,
        logged := false, uncaughtException := false }
  | .httpError =>
      { saving := false, savedInvoked := false,
        request := wizardRequest userId f,
        logged := false, uncaughtException := false }
  | .networkError =>
      { saving := false, savedInvoked := false,
        request := wizardRequest userId f,
        logged := false, uncaughtException := true }

/-- A concrete partner profile used by the witness theorems. -/
def pp0 : PartnerProfile :=
  { name := "Sam", personality_type := none, love_language := none,
    interests := none, preferences := none }

/-- A concrete application state used by the witness theorems: a signed-in
user with an empty chat and no selected relationship. -/
def st0 : AppState :=
  { currentView := "chat",
    userId := some "user_1",
    userProfile := some
      { name := "Alice", email := "alice@example.com", self_assessment := none },
    relationships := [],
    selectedRelationship := none,
    messages := [],
    adviceOpen := false,
    adviceTopic := "Communication",
    adviceSituation := "",
    advicePartner := none,
    adviceLoading := false,
    adviceList := [],
    selectedAdvice := none,
    sessions := [],
    inputMessage := "",
    sessionId := none,
    loading := false,
    sidebarOpen := true }

/-- `jsSlice` never returns more than `n` characters. -/
theorem jsSlice_length_le (s : String) (n : Nat) : (jsSlice s n).length ≤ n := by
  show (s.data.take n).length ≤ n
  rw [List.length_take]
  exact Nat.min_le_left _ _

/-- `jsSlice` is the identity on strings within the limit. -/
theorem jsSlice_eq_self_of_le (s : String) (n : Nat) (h : s.length ≤ n) :
    jsSlice s n = s := by
  show (⟨s.data.take n⟩ : String) = s
  have : s.data.take n = s.data := List.take_of_length_le h
  rw [this]

/-- `jsSlice` returns a prefix of its input. -/
theorem jsSlice_prefix (s : String) (n : Nat) :
    (jsSlice s n).data <+: s.data := by
  show s.data.take n <+: s.data
  exact List.take_prefix n s.data

/-- C2: for every non-blank input, `sendMessage` appends the user message
(with role `user` and the input's content) to the messages list in every
outcome — it is appended before the request — and appends an assistant
message carrying the response content exactly when the response is
successful; on a failed response no assistant message is appended. -/
theorem sendMessage_appends_user_and_assistant_iff_ok
    (st : AppState) (o : FetchOutcome ChatResponse)
    (h : jsTrim st.inputMessage ≠ "") :
    (sendMessage st o).state.messages =
      st.messages ++ [{ role := "user", content := st.inputMessage }] ++
        (match o with
         | .success d => [{ role := "assistant", content := d.response }]
         | .httpError => []
         | .networkError => []) := by
  unfold sendMessage
  rw [if_neg h]
  cases o <;> simp

/-- Witness for C2 at a concrete state: both the success case (assistant
reply appended after the user message) follows by applying the theorem. -/
theorem sendMessage_appends_witness :
    jsTrim "hi" ≠ "" ∧
    (sendMessage { st0 with inputMessage := "hi" }
        (FetchOutcome.success { session_id := "s1", response := "hello" })
      ).state.messages =
      [{ role := "user", content := "hi" },
       { role := "assistant", content := "hello" }] := by
  refine ⟨by decide, ?_⟩
  have h := sendMessage_appends_user_and_assistant_iff_ok
    { st0 with inputMessage := "hi" }
    (FetchOutcome.success { session_id := "s1", response := "hello" })
    (by decide)
  simpa [st0] using h

/-- C3: values written to the advice-situation state by its `onChange`
handler never exceed 1000 characters (so the displayed character count is at
most 1000), the handlers preserve that bound, and the `situation` field of
the `POST /api/advice` payload is the state's text truncated to at most 1000
characters: a prefix of it, of length at most 1000, equal to it whenever the
state is within the limit. -/
theorem advice_situation_truncation
    (st : AppState) (v : String) (o : FetchOutcome AdviceResponse)
    (hinv : st.adviceSituation.length ≤ 1000) :
    (adviceSituationOnChange v).length ≤ 1000 ∧
    (submitAdvice st o).state.adviceSituation.length ≤ 1000 ∧
    adviceCharCount st ≤ 1000 ∧
    (submitAdvicePayload st).situation.data <+: st.adviceSituation.data ∧
    (submitAdvicePayload st).situation.length ≤ 1000 ∧
    (submitAdvicePayload st).situation = st.adviceSituation := by
  refine ⟨jsSlice_length_le v 1000, ?_, hinv, ?_, ?_, ?_⟩
  · unfold submitAdvice
    split
    · exact hinv
    · cases o <;> simp <;> exact hinv
  · exact jsSlice_prefix st.adviceSituation 1000
  · exact jsSlice_length_le st.adviceSituation 1000
  · show jsSlice st.adviceSituation 1000 = st.adviceSituation
    exact jsSlice_eq_self_of_le st.adviceSituation 1000 hinv

/-- Witness for C3 at a concrete state and an over-long `onChange` input. -/
theorem advice_situation_truncation_witness :
    ({ st0 with adviceSituation := "help" } : AppState).adviceSituation.length ≤ 1000 ∧
    (submitAdvicePayload { st0 with adviceSituation := "help" }).situation = "help" := by
  refine ⟨by decide, ?_⟩
  have h := advice_situation_truncation { st0 with adviceSituation := "help" }
    "x" FetchOutcome.httpError (by decide)
  simpa [st0] using h.2.2.2.2.2

/-- C5: opening a session with a successful history response clears the
selected relationship exactly when the response carries no partner profile,
otherwise sets it to that profile with the response's relationship type
(defaulting to `general` when absent); the messages list is replaced by the
response's messages.  The hypothesis excludes an empty-string
`relationship_type`, which JS `||` would also replace by `general`. -/
theorem openSession_sets_partner_context
    (st : AppState) (sid : String) (d : HistoryResponse)
    (hrt : ∀ s, d.relationship_type = some s → s ≠ "") :
    (d.partner_profile = none →
      (openSession st sid (FetchOutcome.success d)).state.selectedRelationship
        = none) ∧
    (∀ p, d.partner_profile = some p →
      (openSession st sid (FetchOutcome.success d)).state.selectedRelationship
        = some { relationship_type := d.relationship_type.getD "general",
                 partner_profile := p }) ∧
    (openSession st sid (FetchOutcome.success d)).state.messages
      = d.messages.getD [] := by
  have hmap : (fun m : Message =>
      ({ role := m.role, content := m.content } : Message)) = id := rfl
  refine ⟨?_, ?_, ?_⟩
  · intro hp
    simp [openSession, hp]
  · intro p hp
    have : jsOrOpt d.relationship_type "general"
        = d.relationship_type.getD "general" := by
      cases hv : d.relationship_type with
      | none => rfl
      | some s =>
          have hne : s ≠ "" := hrt s hv
          simp [jsOrOpt, hne]
    simp [openSession, hp, this]
  · simp [openSession, hmap]

/-- Witness for C5: a history response carrying a partner profile but no
relationship type yields a selected relationship of type `general` with that
profile, and the messages are replaced. -/
theorem openSession_witness :
    (openSession st0 "sess1" (FetchOutcome.success
        { messages := some [{ role := "user", content := "x" }],
          partner_profile := some pp0,
          relationship_type := none })).state.selectedRelationship
      = some { relationship_type := "general", partner_profile := pp0 } ∧
    (openSession st0 "sess1" (FetchOutcome.success
        { messages := some [{ role := "user", content := "x" }],
          partner_profile := some pp0,
          relationship_type := none })).state.messages
      = [{ role := "user", content := "x" }] := by
  have h := openSession_sets_partner_context st0 "sess1"
    { messages := some [{ role := "user", content := "x" }],
      partner_profile := some pp0,
      relationship_type := none }
    (by intro s hs; simp at hs)
  exact ⟨h.2.1 pp0 rfl, h.2.2⟩

/-- C6: a successful `deleteAdvice` keeps exactly the entries whose id
differs from the deleted one, and clears the viewed advice precisely when
its id equals the deleted id. -/
theorem deleteAdvice_removes_exactly (st : AppState) (advice_id : String) :
    (∀ a : Advice,
      a ∈ (deleteAdvice st advice_id (FetchOutcome.success ())).state.adviceList
        ↔ (a ∈ st.adviceList ∧ a.advice_id ≠ advice_id)) ∧
    (∀ sa, st.selectedAdvice = some sa →
      ((deleteAdvice st advice_id (FetchOutcome.success ())).state.selectedAdvice
          = none
        ↔ sa.advice_id = advice_id)) := by
  constructor
  · intro a
    simp only [deleteAdvice]
    split <;> simp [List.mem_filter]
  · intro sa hsa
    simp only [deleteAdvice]
    by_cases h : sa.advice_id = advice_id <;> simp [hsa, h]

/-- Witness for C6: deleting the currently viewed advice removes its list
entry and clears the view. -/
theorem deleteAdvice_removes_witness :
    ¬ (({ advice_id := "a1", topic := "Trust", preview := "p" } : Advice) ∈
        (deleteAdvice
          { st0 with
            adviceList :=
              [{ advice_id := "a1", topic := "Trust", preview := "p" },
               { advice_id := "a2", topic := "Family", preview := "q" }],
            selectedAdvice := some
              { advice_id := "a1", topic := "Trust", content := "c",
                created_at := "t" } }
          "a1" (FetchOutcome.success ())).state.adviceList) ∧
    (deleteAdvice
        { st0 with
          adviceList :=
            [{ advice_id := "a1", topic := "Trust", preview := "p" },
             { advice_id := "a2", topic := "Family", preview := "q" }],
          selectedAdvice := some
            { advice_id := "a1", topic := "Trust", content := "c",
              created_at := "t" } }
        "a1" (FetchOutcome.success ())).state.selectedAdvice = none := by
  constructor
  · intro hmem
    have h := ((deleteAdvice_removes_exactly
      { st0 with
        adviceList :=
          [{ advice_id := "a1", topic := "Trust", preview := "p" },
           { advice_id := "a2", topic := "Family", preview := "q" }],
        selectedAdvice := some
          { advice_id := "a1", topic := "Trust", content := "c",
            created_at := "t" } }
      "a1").1 { advice_id := "a1", topic := "Trust", preview := "p" }).mp hmem
    exact h.2 rfl
  · exact ((deleteAdvice_removes_exactly
      { st0 with
        adviceList :=
          [{ advice_id := "a1", topic := "Trust", preview := "p" },
           { advice_id := "a2", topic := "Family", preview := "q" }],
        selectedAdvice := some
          { advice_id := "a1", topic := "Trust", content := "c",
            created_at := "t" } }
      "a1").2
      { advice_id := "a1", topic := "Trust", content := "c", created_at := "t" }
      rfl).mpr rfl

/-- C9 (frame): a successful `deleteAdvice` only ever drops entries — the
surviving list is a sublist of the original (relative order preserved) —
keeps every entry whose id differs from the deleted one, and leaves the
viewed advice untouched when its id differs. -/
theorem deleteAdvice_frame (st : AppState) (advice_id : String) :
    ((deleteAdvice st advice_id (FetchOutcome.success ())).state.adviceList).Sublist
        st.adviceList ∧
    (∀ a ∈ st.adviceList, a.advice_id ≠ advice_id →
      a ∈ (deleteAdvice st advice_id (FetchOutcome.success ())).state.adviceList) ∧
    (∀ sa, st.selectedAdvice = some sa → sa.advice_id ≠ advice_id →
      (deleteAdvice st advice_id (FetchOutcome.success ())).state.selectedAdvice
        = some sa) := by
  refine ⟨?_, ?_, ?_⟩
  · simp only [deleteAdvice]
    split <;> exact List.filter_sublist _
  · intro a ha hne
    simp only [deleteAdvice]
    split <;> simp [List.mem_filter, ha, hne]
  · intro sa hsa hne
    simp only [deleteAdvice]
    simp [hsa, hne]

/-- Witness for C9: deleting `a1` keeps the differently-named entry `a2` and
leaves the viewed advice `a2` in place. -/
theorem deleteAdvice_frame_witness :
    (({ advice_id := "a2", topic := "Family", preview := "q" } : Advice) ∈
      (deleteAdvice
        { st0 with
          adviceList :=
            [{ advice_id := "a1", topic := "Trust", preview := "p" },
             { advice_id := "a2", topic := "Family", preview := "q" }],
          selectedAdvice := some
            { advice_id := "a2", topic := "Family", content := "c",
              created_at := "t" } }
        "a1" (FetchOutcome.success ())).state.adviceList) ∧
    (deleteAdvice
        { st0 with
          adviceList :=
            [{ advice_id := "a1", topic := "Trust", preview := "p" },
             { advice_id := "a2", topic := "Family", preview := "q" }],
          selectedAdvice := some
            { advice_id := "a2", topic := "Family", content := "c",
              created_at := "t" } }
        "a1" (FetchOutcome.success ())).state.selectedAdvice
      = some { advice_id := "a2", topic := "Family", content := "c",
               created_at := "t" } := by
  constructor
  · exact (deleteAdvice_frame
      { st0 with
        adviceList :=
          [{ advice_id := "a1", topic := "Trust", preview := "p" },
           { advice_id := "a2", topic := "Family", preview := "q" }],
        selectedAdvice := some
          { advice_id := "a2", topic := "Family", content := "c",
            created_at := "t" } }
      "a1").2.1 { advice_id := "a2", topic := "Family", preview := "q" }
      (by simp) (by decide)
  · exact (deleteAdvice_frame
      { st0 with
        adviceList :=
          [{ advice_id := "a1", topic := "Trust", preview := "p" },
           { advice_id := "a2", topic := "Family", preview := "q" }],
        selectedAdvice := some
          { advice_id := "a2", topic := "Family", content := "c",
            created_at := "t" } }
      "a1").2.2
      { advice_id := "a2", topic := "Family", content := "c", created_at := "t" }
      rfl (by decide)

/-- Counterexample to C1: run `sendMessage` from a state with an empty chat
and the input `hi` against a network failure.  The failure is caught and
logged, but the UI is NOT left as it was before the call: the messages list
has gained the optimistic user message and the input field has been
cleared. -/
theorem sendMessage_failure_mutates_state :
    (sendMessage { st0 with inputMessage := "hi" }
        FetchOutcome.networkError).logged = true ∧
    (sendMessage { st0 with inputMessage := "hi" }
        FetchOutcome.networkError).state.messages ≠
      ({ st0 with inputMessage := "hi" } : AppState).messages ∧
    (sendMessage { st0 with inputMessage := "hi" }
        FetchOutcome.networkError).state.inputMessage ≠
      ({ st0 with inputMessage := "hi" } : AppState).inputMessage := by
  decide

/-- C1 as amended: on a failed chat request no user-facing error or retry is
produced and no success-path update runs, but the state already mutated
before the call (optimistic user message, cleared input) stays; the failure
is logged only when it is a thrown network error (a non-ok status is ignored
silently), and nothing escapes `sendMessage`.  The partner-profile wizard's
`submit`, by contrast, has no catch clause: a network rejection escapes it
uncaught and unlogged, with only its saving flag reset by `finally`. -/
theorem failure_handling_amended (st : AppState)
    (o : FetchOutcome ChatResponse) (userId : String) (f : WizardForm)
    (hfail : ∀ d, o ≠ FetchOutcome.success d)
    (hmsg : jsTrim st.inputMessage ≠ "") :
    (sendMessage st o).uncaught = false ∧
    ((sendMessage st o).logged = true ↔ o = FetchOutcome.networkError) ∧
    (sendMessage st o).state =
      { st with
        messages := st.messages ++
          [{ role := "user", content := st.inputMessage }],
        inputMessage := "", loading := false } ∧
    (wizardSubmit userId f FetchOutcome.networkError).uncaughtException
      = true ∧
    (wizardSubmit userId f FetchOutcome.networkError).logged = false ∧
    (wizardSubmit userId f FetchOutcome.networkError).saving = false := by
  cases o with
  | success d => exact absurd rfl (hfail d)
  | httpError =>
      refine ⟨?_, ?_, ?_, rfl, rfl, rfl⟩ <;> simp [sendMessage, hmsg]
  | networkError =>
      refine ⟨?_, ?_, ?_, rfl, rfl, rfl⟩ <;> simp [sendMessage, hmsg]

/-- Witness for the amended C1 at a concrete state, failure outcome and
wizard form. -/
theorem failure_handling_amended_witness :
    (∀ d, (FetchOutcome.httpError : FetchOutcome ChatResponse)
      ≠ FetchOutcome.success d) ∧
    jsTrim ({ st0 with inputMessage := "hi" } : AppState).inputMessage ≠ "" ∧
    (sendMessage { st0 with inputMessage := "hi" }
        FetchOutcome.httpError).uncaught = false ∧
    (wizardSubmit "user_1"
        { name := "Sam", birthday := "2000-01-01",
          relationship_status := "romantic", anniversary_dates := "",
          love_language := "", zodiac_sign := "", music_preferences := "",
          religious_beliefs := "", ideal_vacations := "", hobbies := "",
          fashion_preferences := "", dietary_restrictions := "" }
        FetchOutcome.networkError).uncaughtException = true := by
  have h := failure_handling_amended { st0 with inputMessage := "hi" }
    FetchOutcome.httpError "user_1"
    { name := "Sam", birthday := "2000-01-01",
      relationship_status := "romantic", anniversary_dates := "",
      love_language := "", zodiac_sign := "", music_preferences := "",
      religious_beliefs := "", ideal_vacations := "", hobbies := "",
      fashion_preferences := "", dietary_restrictions := "" }
    (by intro d hd; cases hd) (by decide)
  exact ⟨fun d hd => FetchOutcome.noConfusion hd, (by decide), h.1, h.2.2.2.1⟩

/-- Counterexample to C4: submitting onboarding with a name and email and
every optional field empty passes `null` for the assessment, and
`JSON.stringify` KEEPS a `null`-valued property — the serialized
`POST /api/users` body still contains a `self_assessment` key. -/
theorem createUser_body_keeps_null_assessment :
    "self_assessment" ∈ serializedKeys
      (createUserRequest "user_1" "Alice" "alice@example.com"
        (handleSubmit "Alice" "alice@example.com" "" "" "").assessment).body := by
  decide

/-- C4 as amended: onboarding with a non-empty name and email and all
optional self-assessment fields left empty creates the user via
`POST /api/users`, passing `null` (not `undefined`) for the assessment, so
the request body carries `self_assessment` explicitly as JSON `null` rather
than omitting the key. -/
theorem createUser_body_null_assessment (newUserId name email : String) :
    (handleSubmit name email "" "" "").assessment = none ∧
    (handleSubmit name email "" "" "").name = name ∧
    (handleSubmit name email "" "" "").email = email ∧
    (createUserRequest newUserId name email
        (handleSubmit name email "" "" "").assessment).method = "POST" ∧
    (createUserRequest newUserId name email
        (handleSubmit name email "" "" "").assessment).path = "/api/users" ∧
    ("self_assessment", JsVal.jnull) ∈
      (createUserRequest newUserId name email
        (handleSubmit name email "" "" "").assessment).body ∧
    "self_assessment" ∈ serializedKeys
      (createUserRequest newUserId name email
        (handleSubmit name email "" "" "").assessment).body := by
  have hassess : (handleSubmit name email "" "" "").assessment = none := by
    simp [handleSubmit, assessmentKeyCount, optOfEmpty]
  refine ⟨hassess, rfl, rfl, rfl, rfl, ?_, ?_⟩
  · rw [hassess]
    simp [createUserRequest, createUserBody]
  · rw [hassess]
    simp [createUserRequest, createUserBody, serializedKeys]

/-- Counterexample to C8: with no relationship selected and a profile without
a self-assessment, `partner_profile` and `self_assessment` are JS `undefined`
and `JSON.stringify` DROPS them — the serialized chat body does not contain
all six claimed fields. -/
theorem chat_body_drops_undefined_fields :
    "partner_profile" ∉
      serializedKeys (chatRequestBody { st0 with inputMessage := "hi" }) ∧
    "self_assessment" ∉
      serializedKeys (chatRequestBody { st0 with inputMessage := "hi" }) ∧
    serializedKeys (chatRequestBody { st0 with inputMessage := "hi" })
      = ["user_id", "message", "relationship_type", "session_id"] := by
  decide

/-- C8 as amended: the serialized chat body always contains `user_id`,
`message`, `relationship_type` and `session_id`; it contains
`partner_profile` exactly when a relationship is selected and
`self_assessment` exactly when the loaded profile carries one (an
`undefined` value is dropped by `JSON.stringify`).  `relationship_type` is
the selected relationship's type, or `general` when none is selected; on a
successful response the client's session id is set to the returned one.
The hypothesis excludes an empty-string relationship type, which JS `||`
would also replace by `general`. -/
theorem chat_body_fields_amended (st : AppState)
    (hrel : ∀ r, st.selectedRelationship = some r → r.relationship_type ≠ "")
    (hmsg : jsTrim st.inputMessage ≠ "") :
    serializedKeys (chatRequestBody st) =
      ["user_id", "message", "relationship_type"] ++
        (match st.selectedRelationship with
         | some _ => ["partner_profile"]
         | none => []) ++
        (match st.userProfile.bind (fun u => u.self_assessment) with
         | some _ => ["self_assessment"]
         | none => []) ++
        ["session_id"] ∧
    chatRelationshipType st =
      (match st.selectedRelationship with
       | some r => r.relationship_type
       | none => "general") ∧
    (∀ d, (sendMessage st (FetchOutcome.success d)).state.sessionId
      = some d.session_id) := by
  refine ⟨?_, ?_, ?_⟩
  · rcases hsel : st.selectedRelationship with _ | r <;>
      cases hid : st.userId <;>
      cases hsid : st.sessionId <;>
      rcases hup : st.userProfile with _ | u <;>
      (try rcases hsa : u.self_assessment with _ | a) <;>
      simp [serializedKeys, chatRequestBody, hsel, hup, hid, hsid, *]
  · rcases hsel : st.selectedRelationship with _ | r
    · simp [chatRelationshipType, hsel]
    · have : r.relationship_type ≠ "" := hrel r hsel
      simp [chatRelationshipType, hsel, jsOrStr, this]
  · intro d
    simp [sendMessage, hmsg]

/-- Witness for the amended C8 at a concrete state with a selected romantic
relationship and no self-assessment: the serialized body is exactly the five
surviving keys and the type is the relationship's own. -/
theorem chat_body_fields_witness :
    serializedKeys (chatRequestBody
        { st0 with
            inputMessage := "hi",
            selectedRelationship := some
              { relationship_type := "romantic", partner_profile := pp0 } })
      = ["user_id", "message", "relationship_type", "partner_profile",
         "session_id"] ∧
    chatRelationshipType
        { st0 with
            inputMessage := "hi",
            selectedRelationship := some
              { relationship_type := "romantic", partner_profile := pp0 } }
      = "romantic" := by
  have h := chat_body_fields_amended
    { st0 with
        inputMessage := "hi",
        selectedRelationship := some
          { relationship_type := "romantic", partner_profile := pp0 } }
    (fun r hr => by cases hr; decide) (by decide)
  refine ⟨?_, ?_⟩
  · have h1 := h.1
    simpa [st0] using h1
  · have h2 := h.2.1
    simpa [st0] using h2

/-- Reading back a key just written returns the written value. -/
theorem storageGet_set (store : List (String × String)) (k v : String) :
    storageGet (storageSet store k v) k = some v := by
  simp [storageGet, storageSet]

/-- Reading a key just removed returns nothing. -/
theorem storageGet_remove (store : List (String × String)) (k : String) :
    storageGet (storageRemove store k) k = none := by
  have hfind : List.find? (fun kv => kv.1 = k)
      (store.filter (fun kv => kv.1 ≠ k)) = none := by
    rw [List.find?_eq_none]
    intro x hx
    have hne := (List.mem_filter.mp hx).2
    simpa using hne
  simp [storageGet, storageRemove, hfind]

/-- C7: every localStorage operation the client performs — the bootstrap
read, the write in `createUser`, and the removal in Sign Out — uses the one
fixed key `luvvtapp_user_id`; the only value ever written is the generated
user id; sign-out removes the stored id; and a successful `createUser`
stores exactly the generated id under that key. -/
theorem storage_uses_single_key (st : AppState)
    (store : List (String × String)) (newUserId name email : String)
    (a : Option SelfAssessment) :
    (∀ op ∈ clientStorageOps newUserId, op.key = "luvvtapp_user_id") ∧
    (∀ k v, StorageOp.write k v ∈ clientStorageOps newUserId →
      (k = "luvvtapp_user_id" ∧ v = newUserId)) ∧
    storageGet (signOut st store).2 appStorageKey = none ∧
    storageGet
      (createUser st store newUserId name email a (FetchOutcome.success ())).2.1
      appStorageKey = some newUserId := by
  refine ⟨?_, ?_, ?_, ?_⟩
  · intro op hop
    simp only [clientStorageOps, List.mem_cons, List.not_mem_nil, or_false]
      at hop
    rcases hop with rfl | rfl | rfl <;> rfl
  · intro k v h
    simp only [clientStorageOps, List.mem_cons, List.not_mem_nil, or_false]
      at h
    rcases h with h | h | h
    · exact absurd h (by simp)
    · refine ⟨?_, ?_⟩ <;> cases h <;> rfl
    · exact absurd h (by simp)
  · exact storageGet_remove store appStorageKey
  · exact storageGet_set store appStorageKey newUserId

/-- Witness for C7 at a concrete store holding the id: the write call site
uses the fixed key, and sign-out really clears it. -/
theorem storage_uses_single_key_witness :
    (StorageOp.write appStorageKey "user_1").key = "luvvtapp_user_id" ∧
    storageGet (signOut st0 [(appStorageKey, "user_1")]).2 appStorageKey
      = none := by
  have h := storage_uses_single_key st0 [(appStorageKey, "user_1")]
    "user_1" "Alice" "alice@example.com" none
  exact ⟨h.1 (StorageOp.write appStorageKey "user_1") (by simp [clientStorageOps]),
         h.2.2.1⟩

/-- C10: `createUser` adopts and persists the generated id only on a
successful response.  On any failure the state and the store are exactly as
before — in particular, if no user was set, onboarding is still shown — and
on success the id is adopted and stored under the fixed key. -/
theorem createUser_persists_only_on_success (st : AppState)
    (store : List (String × String)) (newUserId name email : String)
    (a : Option SelfAssessment) (o : FetchOutcome Unit)
    (hfail : ∀ u, o ≠ FetchOutcome.success u) :
    (createUser st store newUserId name email a o).1 = st ∧
    (createUser st store newUserId name email a o).2.1 = store ∧
    (st.userId = none →
      showOnboarding (createUser st store newUserId name email a o).1
        = true) ∧
    (createUser st store newUserId name email a
      (FetchOutcome.success ())).1.userId = some newUserId ∧
    storageGet
      (createUser st store newUserId name email a (FetchOutcome.success ())).2.1
      appStorageKey = some newUserId := by
  cases o with
  | success u => exact absurd rfl (hfail u)
  | httpError =>
      refine ⟨rfl, rfl, ?_, rfl, storageGet_set store appStorageKey newUserId⟩
      intro h
      simp [createUser, showOnboarding, h]
  | networkError =>
      refine ⟨rfl, rfl, ?_, rfl, storageGet_set store appStorageKey newUserId⟩
      intro h
      simp [createUser, showOnboarding, h]

/-- Witness for C10: a failed `createUser` from the signed-out state leaves
the empty store empty and onboarding still showing. -/
theorem createUser_persists_witness :
    (createUser { st0 with userId := none } [] "user_9" "Alice"
        "alice@example.com" none FetchOutcome.httpError).2.1 = [] ∧
    showOnboarding
      (createUser { st0 with userId := none } [] "user_9" "Alice"
        "alice@example.com" none FetchOutcome.httpError).1 = true := by
  have h := createUser_persists_only_on_success { st0 with userId := none }
    [] "user_9" "Alice" "alice@example.com" none FetchOutcome.httpError
    (fun u hd => FetchOutcome.noConfusion hd)
  exact ⟨h.2.1, h.2.2.1 rfl⟩
